import Mathlib

/-
Verification of the host-side logic of vulkan_minimal_compute (src/main.cpp):
a single-dispatch GPU compute pipeline that renders a Mandelbrot image.
The shallow embedding below translates the constants, the error-checking
macro, the seed generator, the descriptor-set configuration and the call
sequence of ComputeApplication.run into Lean definitions, and proves the
specified properties about them.  Methods whose bodies the source omits
(marked there as omitted for brevity) are modelled from the specification
and carry a doc comment saying so.
-/

/- Fixed compile-time constants, main.cpp lines 10-12. -/

def WIDTH : Nat := 3200

def HEIGHT : Nat := 2400

def WORKGROUP_SIZE : Nat := 32

/- Vulkan enum and flag values used by the program (from vulkan/vulkan.h). -/

def VK_SUCCESS : Int := 0

def VK_DESCRIPTOR_TYPE_UNIFORM_BUFFER : Nat := 6

def VK_DESCRIPTOR_TYPE_STORAGE_BUFFER : Nat := 7

def VK_SHADER_STAGE_COMPUTE_BIT : Nat := 32

/- The VK_CHECK_RESULT macro, main.cpp lines 21-29: on a non-success
result it prints the status code, file and line, then executes
assert(res == VK_SUCCESS).  The C assert aborts the process only when
NDEBUG is not defined; under NDEBUG it expands to nothing and execution
continues.  The embedding records whether the failure was logged and
whether the process aborted, as a function of the build configuration. -/

structure CheckOutcome where
  logged : Bool
  aborted : Bool
deriving DecidableEq

/-- Behaviour of the C assert macro: it aborts exactly when the asserted
condition is false and the build does not define NDEBUG. -/
def assertAborts (ndebug : Bool) (cond : Bool) : Bool := !ndebug && !cond

/-- Embedding of VK_CHECK_RESULT, main.cpp lines 21-29. -/
def VK_CHECK_RESULT (ndebug : Bool) (res : Int) : CheckOutcome :=
  if res = VK_SUCCESS then ⟨false, false⟩
  else ⟨true, assertAborts ndebug (res == VK_SUCCESS)⟩

/- generateSeed, main.cpp lines 31-33: reads the high-resolution clock
tick count (a 64-bit signed count, nonnegative in practice) and returns
it as uint32_t; the C++ integer conversion reduces the count modulo
2 to the 32.  The tick count is the function argument here. -/

def UINT32_MOD : Nat := 2 ^ 32

/-- Embedding of generateSeed, main.cpp lines 31-33, as a function of the
clock tick reading. -/
def generateSeed (ticks : Nat) : Nat := ticks % UINT32_MOD

/- The Pixel struct, main.cpp lines 37-39: four packed float channels.
A float occupies 4 bytes and the struct has no padding, so
sizeof(Pixel) = 16. -/

structure Pixel where
  r : Float
  g : Float
  b : Float
  a : Float

def sizeofFloat : Nat := 4

def sizeofPixel : Nat := 4 * sizeofFloat

/-- bufferSize = sizeof(Pixel) * WIDTH * HEIGHT, main.cpp line 67. -/
def bufferSize : Nat := sizeofPixel * WIDTH * HEIGHT

/-- seedBufferSize = sizeof(uint32_t), main.cpp line 59. -/
def seedBufferSize : Nat := 4

/- Descriptor set layout, main.cpp lines 104-122, and the descriptor
writes populating the single set, main.cpp lines 147-175. -/

structure VkDescriptorSetLayoutBinding where
  binding : Nat
  descriptorType : Nat
  descriptorCount : Nat
  stageFlags : Nat
deriving DecidableEq, Inhabited

/-- The two layout bindings set up in createDescriptorSetLayout,
main.cpp lines 105-114. -/
def descriptorSetLayoutBindings : List VkDescriptorSetLayoutBinding :=
  [{ binding := 0
     descriptorType := VK_DESCRIPTOR_TYPE_STORAGE_BUFFER
     descriptorCount := 1
     stageFlags := VK_SHADER_STAGE_COMPUTE_BIT },
   { binding := 1
     descriptorType := VK_DESCRIPTOR_TYPE_UNIFORM_BUFFER
     descriptorCount := 1
     stageFlags := VK_SHADER_STAGE_COMPUTE_BIT }]

/-- layoutInfo.bindingCount, main.cpp line 118. -/
def descriptorSetLayoutBindingCount : Nat := 2

/-- The two device buffers the program creates: the large pixel output
buffer (member buffer) and the small seed uniform buffer (member
seedBuffer). -/
inductive BufferHandle where
  | pixelBuffer
  | seedBuffer
deriving DecidableEq, Inhabited

structure VkWriteDescriptorSet where
  dstBinding : Nat
  dstArrayElement : Nat
  descriptorType : Nat
  descriptorCount : Nat
  buffer : BufferHandle
  offset : Nat
  range : Nat
deriving DecidableEq, Inhabited

/-- The two descriptor writes passed to vkUpdateDescriptorSets in
createDescriptorSet, main.cpp lines 147-175. -/
def descriptorWrites : List VkWriteDescriptorSet :=
  [{ dstBinding := 0
     dstArrayElement := 0
     descriptorType := VK_DESCRIPTOR_TYPE_STORAGE_BUFFER
     descriptorCount := 1
     buffer := BufferHandle.pixelBuffer
     offset := 0
     range := bufferSize },
   { dstBinding := 1
     dstArrayElement := 0
     descriptorType := VK_DESCRIPTOR_TYPE_UNIFORM_BUFFER
     descriptorCount := 1
     buffer := BufferHandle.seedBuffer
     offset := 0
     range := seedBufferSize }]

/- Modelled parts: the memory-type search and the dispatch group counts.
Their bodies are not in the partial source. -/

/-- Whether memory type index i with property flags props satisfies the
request: bit i set in the type bitmask, and props a superset of the
requested flags. -/
def memTypeMatches (memoryTypeBits requiredProperties i props : Nat) : Bool :=
  memoryTypeBits.testBit i && ((props &&& requiredProperties) == requiredProperties)

/-- Scanning loop of the memory-type search, from index k over the
remaining property-flag table. -/
def findMemoryTypeAux (bits req : Nat) : Nat → List Nat → Option Nat
  | _, [] => none
  | k, p :: rest =>
      if memTypeMatches bits req k p then some k
      else findMemoryTypeAux bits req (k + 1) rest

/-- Modelled from the spec: the body of findMemoryType is omitted from the
source (only its call site in createSeedBuffer, main.cpp lines 97-98,
appears).  Spec section 4.2: first index, in hardware-reported order,
whose type bit is set and whose property flags are a superset of the
requested flags; fails fatally if no matching type exists.  The table
memoryTypes lists the hardware-reported property flags per index; the
result none models the fatal failure. -/
def findMemoryType (memoryTypes : List Nat) (bits req : Nat) : Option Nat :=
  findMemoryTypeAux bits req 0 memoryTypes

/-- Declarative qualification predicate used to state the search property:
index i is in range and matches. -/
def qualifies (memoryTypes : List Nat) (bits req i : Nat) : Bool :=
  decide (i < memoryTypes.length) && memTypeMatches bits req i (memoryTypes.getD i 0)

/-- Modelled from the spec: the vkCmdDispatch recording is omitted from the
source (createCommandBuffer is among the methods omitted for brevity).
Spec section 4.5: a single dispatch with a 2D workgroup count equal to
ceil(width / workgroupSize) by ceil(height / workgroupSize). -/
def dispatchGroupCount (extent : Nat) : Nat :=
  (extent + WORKGROUP_SIZE - 1) / WORKGROUP_SIZE

/- The observable event sequence of one run.  Shown method bodies give
their events directly; omitted bodies are modelled from the spec. -/

inductive Event where
  | apiCall (name : String)
  | genSeed
  | mapMemory (offset size : Nat)
  | memcpyToMapped (nbytes : Nat)
  | unmapMemory
  | updateDescriptorSets (writeCount : Nat)
  | recordDispatch (gx gy gz : Nat)
  | submitQueue
  | waitIdle
deriving DecidableEq

def Event.isGenSeed : Event → Bool
  | Event.genSeed => true
  | _ => false

def Event.isSeedCopy : Event → Bool
  | Event.memcpyToMapped _ => true
  | _ => false

def Event.isRecordDispatch : Event → Bool
  | Event.recordDispatch _ _ _ => true
  | _ => false

def Event.isSubmit : Event → Bool
  | Event.submitQueue => true
  | _ => false

def Event.isDescriptorUpdate : Event → Bool
  | Event.updateDescriptorSets _ => true
  | _ => false

/-- Modelled from the spec: the bodies of createInstance,
findPhysicalDevice, createDevice, createBuffer, createComputePipeline,
createCommandBuffer, saveRenderedImage and cleanup are omitted from the
source (main.cpp line 188).  Per spec sections 4.1-4.6 none of them
generates a seed, updates the descriptor set after its initial
population, records a dispatch, or submits work; each is modelled as a
single opaque API-call event. -/
def setupCall (name : String) : List Event := [Event.apiCall name]

/-- Events of createSeedBuffer, main.cpp lines 82-102. -/
def createSeedBufferTrace : List Event :=
  [Event.apiCall "vkCreateBuffer", Event.apiCall "vkAllocateMemory",
   Event.apiCall "vkBindBufferMemory"]

/-- Events of createDescriptorSetLayout, main.cpp lines 104-122. -/
def createDescriptorSetLayoutTrace : List Event :=
  [Event.apiCall "vkCreateDescriptorSetLayout"]

/-- Events of createDescriptorSet, main.cpp lines 124-176: pool creation,
set allocation, then the single vkUpdateDescriptorSets call with two
writes. -/
def createDescriptorSetTrace : List Event :=
  [Event.apiCall "vkCreateDescriptorPool", Event.apiCall "vkAllocateDescriptorSets",
   Event.updateDescriptorSets 2]

/-- Events of runCommandBuffer.  The first four events are the shown body,
main.cpp lines 178-183: generate the seed, map the seed buffer memory,
copy seedBufferSize bytes, unmap.  The remaining events are modelled from
the spec: the comment at main.cpp line 185 stands for the other command
buffer operations, which spec section 4.5 gives as recording the single
2D dispatch, submitting it, and blocking until completion, all after the
seed write. -/
def runCommandBufferTrace : List Event :=
  [Event.genSeed, Event.mapMemory 0 seedBufferSize,
   Event.memcpyToMapped seedBufferSize, Event.unmapMemory,
   Event.apiCall "vkBeginCommandBuffer",
   Event.recordDispatch (dispatchGroupCount WIDTH) (dispatchGroupCount HEIGHT) 1,
   Event.apiCall "vkEndCommandBuffer",
   Event.submitQueue, Event.waitIdle]

/-- The full event sequence of ComputeApplication.run, main.cpp
lines 66-80, in call order. -/
def runTrace : List Event :=
  setupCall "createInstance" ++ setupCall "findPhysicalDevice" ++
  setupCall "createDevice" ++ setupCall "createBuffer" ++
  createSeedBufferTrace ++ createDescriptorSetLayoutTrace ++
  createDescriptorSetTrace ++ setupCall "createComputePipeline" ++
  setupCall "createCommandBuffer" ++ runCommandBufferTrace ++
  setupCall "saveRenderedImage" ++ setupCall "cleanup"

/- The process entry point, main.cpp lines 191-200: run() inside a try
block whose only handler catches const std::runtime_error, prints its
message and returns EXIT_FAILURE; normal completion returns EXIT_SUCCESS;
an exception of any other type is not caught there. -/

def EXIT_SUCCESS : Nat := 0

def EXIT_FAILURE : Nat := 1

/-- How the call to app.run() terminates. -/
inductive RunOutcome where
  | ok
  | runtimeError (msg : String)
  | otherException
deriving DecidableEq

/-- Result of main: what it printed, and the exit code it returns (none
when an uncaught exception propagates out of main instead of a return). -/
structure MainResult where
  printed : Option String
  exitCode : Option Nat
deriving DecidableEq

/-- Embedding of the C++ main function, main.cpp lines 191-200 (named
cppMain because main is reserved for a Lean entry point). -/
def cppMain : RunOutcome → MainResult
  | RunOutcome.ok => ⟨none, some EXIT_SUCCESS⟩
  | RunOutcome.runtimeError msg => ⟨some msg, some EXIT_FAILURE⟩
  | RunOutcome.otherException => ⟨none, none⟩

/- Theorems. -/

/-- C1, counterexample: the claim that execution never continues past a
failed wrapped call fails in an NDEBUG build, where assert is disabled:
a call returning -1 (VK_ERROR_OUT_OF_HOST_MEMORY) is logged but the
process does not abort and execution continues. -/
theorem vk_check_result_ndebug_continues :
    (-1 : Int) ≠ VK_SUCCESS ∧
    (VK_CHECK_RESULT true (-1)).logged = true ∧
    (VK_CHECK_RESULT true (-1)).aborted = false := by
  decide

/-- C1, amended: for every Vulkan API call wrapped by VK_CHECK_RESULT, a
non-success status is always logged with its code, call site and line,
and the process then terminates if and only if the build has assertions
enabled (NDEBUG not defined); in an NDEBUG build execution continues
past the failed call. -/
theorem vk_check_result_logs_and_aborts (ndebug : Bool) (res : Int)
    (h : res ≠ VK_SUCCESS) :
    (VK_CHECK_RESULT ndebug res).logged = true ∧
    (VK_CHECK_RESULT ndebug res).aborted = !ndebug := by
  simp [VK_CHECK_RESULT, assertAborts, h, beq_iff_eq]

/-- Witness for the amended C1 at a concrete failing status in a build
with assertions enabled. -/
theorem vk_check_result_logs_and_aborts_witness :
    (VK_CHECK_RESULT false (-1)).logged = true ∧
    (VK_CHECK_RESULT false (-1)).aborted = !false :=
  vk_check_result_logs_and_aborts false (-1) (by decide)

/-- C2, counterexample: two clock readings that differ by 2 to the 32
ticks (about 4.3 seconds at nanosecond resolution) differ by at least one
tick, yet generateSeed returns the same seed for both, because the 64-bit
tick count is truncated to 32 bits. -/
theorem generateSeed_collision :
    2 ^ 32 - 0 ≥ 1 ∧ generateSeed (2 ^ 32) = generateSeed 0 := by
  constructor
  · norm_num
  · simp [generateSeed, UINT32_MOD]

/-- C2, amended: two invocations of generateSeed whose underlying clock
readings differ by at least one tick and by fewer than 2 to the 32 ticks
return seed values that are not equal. -/
theorem generateSeed_distinct_within_period (t d : Nat)
    (h1 : 0 < d) (h2 : d < UINT32_MOD) :
    generateSeed (t + d) ≠ generateSeed t := by
  intro he
  simp only [generateSeed] at he
  have hmod : t % UINT32_MOD = (t + d) % UINT32_MOD := he.symm
  have hdvd : UINT32_MOD ∣ (t + d) - t :=
    (Nat.modEq_iff_dvd' (Nat.le_add_right t d)).mp hmod
  rw [Nat.add_sub_cancel_left] at hdvd
  exact absurd (Nat.le_of_dvd h1 hdvd) (Nat.not_le_of_lt h2)

/-- Witness for the amended C2: readings one tick apart give distinct
seeds. -/
theorem generateSeed_distinct_within_period_witness :
    generateSeed (10 + 1) ≠ generateSeed 10 :=
  generateSeed_distinct_within_period 10 1 (by decide) (by decide)

/-- C10: generateSeed returns the clock tick count reduced modulo 2 to
the 32 (the 64-bit duration count narrowed to a 32-bit unsigned integer),
so any two tick counts congruent modulo 2 to the 32 yield the same
seed. -/
theorem generateSeed_eq_mod_u32 (t1 t2 : Nat) :
    generateSeed t1 = t1 % 2 ^ 32 ∧
    (t1 % 2 ^ 32 = t2 % 2 ^ 32 → generateSeed t1 = generateSeed t2) := by
  constructor
  · rfl
  · intro h
    simp only [generateSeed, UINT32_MOD]
    exact h

/-- Witness for C10 at the distinct tick counts 5 and 5 + 2 to the 32. -/
theorem generateSeed_eq_mod_u32_witness :
    generateSeed 5 = 5 % 2 ^ 32 ∧ generateSeed 5 = generateSeed (5 + 2 ^ 32) :=
  ⟨(generateSeed_eq_mod_u32 5 (5 + 2 ^ 32)).1,
   (generateSeed_eq_mod_u32 5 (5 + 2 ^ 32)).2 (by norm_num)⟩

/-- C6: the process exits with status 0 (EXIT_SUCCESS) on normal
completion, and when run throws a std::runtime_error the handler prints
its message and returns EXIT_FAILURE, a non-zero status. -/
theorem main_exit_codes :
    cppMain RunOutcome.ok = ⟨none, some EXIT_SUCCESS⟩ ∧
    EXIT_SUCCESS = 0 ∧
    (∀ msg, cppMain (RunOutcome.runtimeError msg) = ⟨some msg, some EXIT_FAILURE⟩) ∧
    EXIT_FAILURE ≠ 0 := by
  refine ⟨rfl, rfl, fun msg => rfl, by decide⟩

/-- C9: the top-level handler converts only std::runtime_error into the
failing exit status; an exception of any other type is not caught in
main, so it neither prints a message nor produces the reported non-zero
exit path (it propagates out of main instead of returning). -/
theorem main_catches_only_runtime_error :
    cppMain RunOutcome.otherException = ⟨none, none⟩ ∧
    (cppMain RunOutcome.otherException).exitCode ≠ some EXIT_FAILURE ∧
    (cppMain RunOutcome.otherException).printed = none := by
  refine ⟨rfl, by decide, rfl⟩

/-- C3: in the run call sequence exactly one fresh 32-bit seed is
generated from the high-resolution clock, it is written into the seed
buffer by a direct host-visible mapping (map, copy exactly 4 bytes =
sizeof(uint32_t), unmap), and this write precedes the recording and the
submission of the single compute dispatch. -/
theorem seed_written_once_before_dispatch :
    runTrace.countP Event.isGenSeed = 1 ∧
    runTrace.countP Event.isSeedCopy = 1 ∧
    seedBufferSize = 4 ∧
    runCommandBufferTrace.take 4 =
      [Event.genSeed, Event.mapMemory 0 4, Event.memcpyToMapped 4,
       Event.unmapMemory] ∧
    runTrace.countP Event.isRecordDispatch = 1 ∧
    runTrace.countP Event.isSubmit = 1 ∧
    runTrace.findIdx Event.isSeedCopy < runTrace.findIdx Event.isRecordDispatch ∧
    runTrace.findIdx Event.isRecordDispatch < runTrace.findIdx Event.isSubmit := by
  decide

/-- C5: for all extents, the dispatch group count with workgroup size 32
is the least count whose workgroup coverage reaches the extent, i.e. it
equals ceil(extent / 32); in particular groupsX * 32 covers the width and
groupsY * 32 covers the height. -/
theorem dispatch_group_counts_cover (w h : Nat) :
    w ≤ dispatchGroupCount w * WORKGROUP_SIZE ∧
    h ≤ dispatchGroupCount h * WORKGROUP_SIZE ∧
    (∀ n, w ≤ n * WORKGROUP_SIZE → dispatchGroupCount w ≤ n) ∧
    (∀ n, h ≤ n * WORKGROUP_SIZE → dispatchGroupCount h ≤ n) := by
  refine ⟨?_, ?_, ?_, ?_⟩
  · simp only [dispatchGroupCount, WORKGROUP_SIZE]
    omega
  · simp only [dispatchGroupCount, WORKGROUP_SIZE]
    omega
  · intro n hn
    simp only [WORKGROUP_SIZE] at hn
    simp only [dispatchGroupCount, WORKGROUP_SIZE]
    omega
  · intro n hn
    simp only [WORKGROUP_SIZE] at hn
    simp only [dispatchGroupCount, WORKGROUP_SIZE]
    omega

/-- Witness for C5 at the fixed image size 3200 by 2400: 100 groups of 32
cover the width and 100 is minimal for it. -/
theorem dispatch_group_counts_cover_witness :
    3200 ≤ dispatchGroupCount 3200 * WORKGROUP_SIZE ∧
    dispatchGroupCount 3200 ≤ 100 ∧
    2400 ≤ dispatchGroupCount 2400 * WORKGROUP_SIZE :=
  ⟨(dispatch_group_counts_cover 3200 2400).1,
   (dispatch_group_counts_cover 3200 2400).2.2.1 100 (by decide),
   (dispatch_group_counts_cover 3200 2400).2.1⟩

/-- C7: the descriptor set layout has exactly two bindings, slot 0 a
storage buffer (read/write pixel output) and slot 1 a uniform buffer
(read-only seed), both visible only to the compute stage; the single
descriptor set is populated by one vkUpdateDescriptorSets call with two
writes tying slot 0 to the pixel buffer and slot 1 to the seed buffer,
and no later descriptor update occurs in the run sequence. -/
theorem descriptor_layout_two_static_bindings :
    descriptorSetLayoutBindingCount = 2 ∧
    descriptorSetLayoutBindings.length = 2 ∧
    (descriptorSetLayoutBindings.getD 0 default).binding = 0 ∧
    (descriptorSetLayoutBindings.getD 0 default).descriptorType =
      VK_DESCRIPTOR_TYPE_STORAGE_BUFFER ∧
    (descriptorSetLayoutBindings.getD 0 default).stageFlags =
      VK_SHADER_STAGE_COMPUTE_BIT ∧
    (descriptorSetLayoutBindings.getD 1 default).binding = 1 ∧
    (descriptorSetLayoutBindings.getD 1 default).descriptorType =
      VK_DESCRIPTOR_TYPE_UNIFORM_BUFFER ∧
    (descriptorSetLayoutBindings.getD 1 default).stageFlags =
      VK_SHADER_STAGE_COMPUTE_BIT ∧
    descriptorWrites.length = 2 ∧
    (descriptorWrites.getD 0 default).dstBinding = 0 ∧
    (descriptorWrites.getD 0 default).buffer = BufferHandle.pixelBuffer ∧
    (descriptorWrites.getD 0 default).descriptorType =
      VK_DESCRIPTOR_TYPE_STORAGE_BUFFER ∧
    (descriptorWrites.getD 1 default).dstBinding = 1 ∧
    (descriptorWrites.getD 1 default).buffer = BufferHandle.seedBuffer ∧
    (descriptorWrites.getD 1 default).descriptorType =
      VK_DESCRIPTOR_TYPE_UNIFORM_BUFFER ∧
    runTrace.countP Event.isDescriptorUpdate = 1 ∧
    (Event.updateDescriptorSets 2) ∈ createDescriptorSetTrace := by
  decide

/-- C8: the pixel output buffer size equals width times height times
sizeof(Pixel), where a Pixel is 4 packed float channels of 4 bytes each,
and with the fixed constants this is 3200 * 2400 * 16 bytes. -/
theorem buffer_size_formula :
    bufferSize = WIDTH * HEIGHT * sizeofPixel ∧
    sizeofPixel = 4 * sizeofFloat ∧
    sizeofPixel = 16 ∧
    bufferSize = 3200 * 2400 * 16 := by
  refine ⟨?_, rfl, rfl, rfl⟩
  simp only [bufferSize, WIDTH, HEIGHT, sizeofPixel, sizeofFloat]

/-- Specification of the scanning loop: started at index k, it returns the
first matching absolute index at or after k, and none exactly when no
index within the remaining table matches. -/
theorem findMemoryTypeAux_spec (bits req : Nat) (l : List Nat) :
    ∀ k,
      (∀ i, findMemoryTypeAux bits req k l = some i →
        k ≤ i ∧ i - k < l.length ∧
        memTypeMatches bits req i (l.getD (i - k) 0) = true ∧
        ∀ j, k ≤ j → j < i → memTypeMatches bits req j (l.getD (j - k) 0) = false) ∧
      (findMemoryTypeAux bits req k l = none →
        ∀ j, k ≤ j → j - k < l.length →
          memTypeMatches bits req j (l.getD (j - k) 0) = false) := by
  induction l with
  | nil =>
    intro k
    constructor
    · intro i hi
      simp [findMemoryTypeAux] at hi
    · intro _ j _ hlen
      simp only [List.length_nil] at hlen
      exact absurd hlen (Nat.not_lt_zero _)
  | cons p rest ih =>
    intro k
    by_cases h : memTypeMatches bits req k p = true
    · constructor
      · intro i hi
        simp only [findMemoryTypeAux, h, if_true] at hi
        obtain rfl := (Option.some_inj.mp hi)
        refine ⟨Nat.le_refl k, by simp, ?_, ?_⟩
        · simpa [Nat.sub_self] using h
        · intro j hj1 hj2
          exact absurd hj2 (by omega)
      · intro hnone
        simp [findMemoryTypeAux, h] at hnone
    · have hb : memTypeMatches bits req k p = false := by
        rwa [Bool.not_eq_true] at h
      constructor
      · intro i hi
        simp only [findMemoryTypeAux, hb, Bool.false_eq_true, if_false] at hi
        obtain ⟨h1, h2, h3, h4⟩ := (ih (k + 1)).1 i hi
        refine ⟨by omega, ?_, ?_, ?_⟩
        · simp only [List.length_cons]
          omega
        · have hik : i - k = (i - (k + 1)) + 1 := by omega
          rw [hik, List.getD_cons_succ]
          exact h3
        · intro j hj1 hj2
          rcases Nat.eq_or_lt_of_le hj1 with rfl | hlt
          · simpa [Nat.sub_self] using hb
          · have hjk : j - k = (j - (k + 1)) + 1 := by omega
            rw [hjk, List.getD_cons_succ]
            exact h4 j hlt hj2
      · intro hnone
        simp only [findMemoryTypeAux, hb, Bool.false_eq_true, if_false] at hnone
        intro j hj1 hj2
        simp only [List.length_cons] at hj2
        rcases Nat.eq_or_lt_of_le hj1 with rfl | hlt
        · simpa [Nat.sub_self] using hb
        · have h5 := (ih (k + 1)).2 hnone j hlt (by omega)
          have hjk : j - k = (j - (k + 1)) + 1 := by omega
          rw [hjk, List.getD_cons_succ]
          exact h5

/-- C4: for every memory-type table, type bitmask and required property
flags, the memory-type search returns the lowest index that qualifies
(its bit set in the bitmask and its hardware-reported property flags a
superset of the requested flags), and signals failure, modelled as none,
exactly when no index qualifies. -/
theorem findMemoryType_first_match (memoryTypes : List Nat) (bits req : Nat) :
    (∀ i, findMemoryType memoryTypes bits req = some i →
      qualifies memoryTypes bits req i = true ∧
      ∀ j, j < i → qualifies memoryTypes bits req j = false) ∧
    (findMemoryType memoryTypes bits req = none →
      ∀ j, qualifies memoryTypes bits req j = false) := by
  have H := findMemoryTypeAux_spec bits req memoryTypes 0
  constructor
  · intro i hi
    obtain ⟨h1, h2, h3, h4⟩ := H.1 i hi
    rw [Nat.sub_zero] at h2 h3
    constructor
    · unfold qualifies
      rw [h3, Bool.and_true, decide_eq_true_eq]
      exact h2
    · intro j hj
      have h5 := h4 j (Nat.zero_le j) hj
      rw [Nat.sub_zero] at h5
      unfold qualifies
      rw [h5, Bool.and_false]
  · intro hn j
    by_cases hj : j < memoryTypes.length
    · have h5 := H.2 hn j (Nat.zero_le j) (by rwa [Nat.sub_zero])
      rw [Nat.sub_zero] at h5
      unfold qualifies
      rw [h5, Bool.and_false]
    · unfold qualifies
      rw [decide_eq_false hj, Bool.false_and]

/-- Witness for C4 on a synthetic table: bitmask 6 and request 6 over the
property table [1, 6, 14] select index 1, and index 0 does not qualify. -/
theorem findMemoryType_first_match_witness :
    findMemoryType [1, 6, 14] 6 6 = some 1 ∧
    qualifies [1, 6, 14] 6 6 1 = true ∧
    qualifies [1, 6, 14] 6 6 0 = false := by
  have h := (findMemoryType_first_match [1, 6, 14] 6 6).1 1 (by decide)
  exact ⟨by decide, h.1, h.2 0 (by decide)⟩
